import Mathlib

/-!
Shallow embedding of the openclaw Slack inbound-message admission pipeline.

Sources embedded:
* `src/channels/mention-gating.ts` — the pure mention gate.
* the Slack `prepareSlackMessage` pipeline (monitor prepare module).

External collaborator modules (allow-list matching, route resolution,
channel-name resolution, media resolution, formatting, regex matching,
control-command detection, …) are not part of the sources; they are modelled
as function-valued fields of an environment record, so every theorem
quantifies over their behaviour.  JavaScript truthiness on optional strings
(`undefined`/`""` are falsy) is modelled by `jsTruthy`; the nullish operator
`??` on optional values is `<|>` / `Option.getD`.
-/

/-- JS truthiness of a `string | undefined` value: `undefined` and `""` are
falsy, every other string is truthy. -/
def jsTruthy : Option String → Bool
  | none => false
  | some s => decide (s ≠ "")

/-- JS `a || b` on strings: returns `a` unless `a` is empty. -/
def jsOrStr (a b : String) : String :=
  if a = "" then b else a

/-- JS template-literal interpolation of a `string | undefined` value. -/
def jsInterp : Option String → String
  | none => "undefined"
  | some s => s

/-- JS `s.trim()`, implemented over the character list. -/
def jsTrim (s : String) : String :=
  ⟨((s.toList.dropWhile Char.isWhitespace).reverse.dropWhile Char.isWhitespace).reverse⟩

/-- JS `s.slice(0, n)`. -/
def jsSlice (s : String) (n : Nat) : String :=
  ⟨s.toList.take n⟩

/-! ## Mention gate (`src/channels/mention-gating.ts`) -/

/-- `MentionGateParams` of `mention-gating.ts`; the two optional fields are
`implicitMention?` and `shouldBypassMention?`. -/
structure MentionGateParams where
  requireMention : Bool
  canDetectMention : Bool
  wasMentioned : Bool
  implicitMention : Option Bool := none
  shouldBypassMention : Option Bool := none

/-- `MentionGateResult` of `mention-gating.ts`. -/
structure MentionGateResult where
  effectiveWasMentioned : Bool
  shouldSkip : Bool

/-- `resolveMentionGating` of `mention-gating.ts`: the optional flags count
only when strictly equal to `true`; `effectiveWasMentioned` is the OR of the
three mention signals and `shouldSkip` requires a detectable, required and
unsatisfied mention. -/
def resolveMentionGating (params : MentionGateParams) : MentionGateResult :=
  let implicit := decide (params.implicitMention = some true)
  let bypass := decide (params.shouldBypassMention = some true)
  let effectiveWasMentioned := params.wasMentioned || implicit || bypass
  let shouldSkip := params.requireMention && params.canDetectMention && !effectiveWasMentioned
  { effectiveWasMentioned := effectiveWasMentioned, shouldSkip := shouldSkip }

/-! ## String utilities used by the pipeline

`String.includes`, the `/<@[^>]+>/` test and `replace(/\s+/g, " ")` are
implemented over character lists. -/

/-- Does `p` occur as a prefix of `l`? -/
def listStartsWith : List Char → List Char → Bool
  | [], _ => true
  | _ :: _, [] => false
  | p :: ps, c :: cs => p = c && listStartsWith ps cs

/-- Does `needle` occur as a contiguous sublist of `l`? -/
def listContainsSub (needle : List Char) : List Char → Bool
  | [] => needle.isEmpty
  | c :: cs => listStartsWith needle (c :: cs) || listContainsSub needle cs

/-- JS `s.includes(sub)`. -/
def strIncludes (s sub : String) : Bool :=
  listContainsSub sub.toList s.toList

/-- Does the character `c` occur in `l`? -/
def listHasChar (c : Char) : List Char → Bool
  | [] => false
  | x :: xs => x = c || listHasChar c xs

/-- Does the regex `<@[^>]+>` match starting at the head of `l`? -/
def mentionTokenAt : List Char → Bool
  | '<' :: '@' :: c :: rest => decide (c ≠ '>') && listHasChar '>' rest
  | _ => false

/-- Does the regex `<@[^>]+>` match anywhere in `l`? -/
def hasMentionTokenChars : List Char → Bool
  | [] => false
  | c :: cs => mentionTokenAt (c :: cs) || hasMentionTokenChars cs

/-- JS `/<@[^>]+>/.test(s)`. -/
def hasMentionToken (s : String) : Bool :=
  hasMentionTokenChars s.toList

/-- `replace(/\s+/g, " ")`: collapse each maximal whitespace run to one
space.  The flag records whether the previous character was whitespace. -/
def collapseWsChars : Bool → List Char → List Char
  | _, [] => []
  | prevWs, c :: cs =>
    if c.isWhitespace then
      if prevWs then collapseWsChars true cs else ' ' :: collapseWsChars true cs
    else c :: collapseWsChars false cs

/-- JS `s.replace(/\s+/g, " ")`. -/
def collapseWs (s : String) : String :=
  ⟨collapseWsChars false s.toList⟩

/-- JS `.filter((entry, index, list) => list.indexOf(entry) === index)`:
keep the first occurrence of each element. -/
def dedupFirstAux (seen : List String) : List String → List String
  | [] => []
  | x :: xs =>
    if seen.contains x then dedupFirstAux seen xs
    else x :: dedupFirstAux (x :: seen) xs

/-- Order-preserving deduplication keeping first occurrences. -/
def dedupFirst (l : List String) : List String :=
  dedupFirstAux [] l

/-! ## Data model of the Slack prepare pipeline -/

/-- Result of `ctx.resolveChannelName`. -/
structure ChannelInfo where
  name : Option String := none
  type : Option String := none
  topic : Option String := none
  purpose : Option String := none

/-- Result of `normalizeSlackChannelType` (channel kinds: `im` direct,
`mpim` group DM, `channel`/`group` rooms). -/
inductive SlackChannelKind where
  | im
  | mpim
  | chan
  | grp
  | other
deriving DecidableEq

/-- The inbound Slack message event fields read by the pipeline. -/
structure SlackMessageEvent where
  channel : String
  channel_type : Option String := none
  user : Option String := none
  bot_id : Option String := none
  text : Option String := none
  ts : Option String := none
  thread_ts : Option String := none
  parent_user_id : Option String := none
  username : Option String := none
  files : Option (List String) := none

/-- Per-channel configuration from `resolveSlackChannelConfig`. -/
structure SlackChannelConfig where
  allowBots : Option Bool := none
  users : Option (List String) := none
  requireMention : Option Bool := none
  systemPrompt : Option String := none

/-- The resolved Slack account (`account.accountId`,
`account.config?.allowBots`). -/
structure ResolvedSlackAccount where
  accountId : String
  configAllowBots : Option Bool := none

/-- Result of `resolveAgentRoute`. -/
structure AgentRoute where
  agentId : String
  accountId : String
  sessionKey : String

/-- Peer kind passed to `resolveAgentRoute`. -/
inductive RoutePeerKind where
  | dm
  | chanPeer
  | grpPeer
deriving DecidableEq

/-- Result of `ctx.resolveUserName`. -/
structure SlackUserInfo where
  name : Option String := none

/-- Result of `resolveSlackMedia`. -/
structure SlackMedia where
  path : Option String := none
  contentType : Option String := none
  placeholder : Option String := none

/-- Result of `resolveSlackThreadStarter`. -/
structure SlackThreadStarter where
  text : Option String := none
  userId : Option String := none
  ts : Option String := none

/-- A history entry appended to the bounded channel history. -/
structure SlackHistoryEntry where
  sender : String
  body : String
  timestamp : Option Int := none
  messageId : Option String := none

/-- The pairing store: pending pairing requests keyed by sender id, with
their issued codes. -/
structure PairingStore where
  entries : List (String × String)

/-- The `opts` argument of `prepareSlackMessage`. -/
structure PrepareOpts where
  source : String
  wasMentioned : Option Bool := none

/-- The fields of the Slack monitor context read by the pipeline.  Awaited
collaborator lookups (`resolveChannelName`, `resolveUserName`, the
effective allow-from list) are modelled as function/data fields. -/
structure SlackMonitorContext where
  botUserId : Option String := none
  teamId : String := ""
  defaultRequireMention : Bool := false
  dmEnabled : Bool := true
  dmPolicy : String := "open"
  ackReactionScope : String := "none"
  historyLimit : Nat := 0
  threadInheritParent : Bool := false
  threadHistoryScope : String := ""
  allowFromLower : List String := []
  resolveChannelName : String → ChannelInfo := fun _ => {}
  resolveUserName : String → Option SlackUserInfo := fun _ => none
  isChannelAllowed : String → Option String → SlackChannelKind → Bool := fun _ _ _ => true
  channelHistories : String → List SlackHistoryEntry := fun _ => []

/-- The external collaborator modules imported by the prepare pipeline,
modelled as pure functions (the pipeline awaits each exactly once per use).
`regexTest pat s` abstracts matching one configured mention pattern. -/
structure SlackEnv where
  normalizeChannelType : Option String → String → SlackChannelKind := fun _ _ => .other
  resolveChannelConfig : String → Option String → Option SlackChannelConfig := fun _ _ => none
  cfgAllowBots : Option Bool := none
  resolveAgentRoute : String → Option String → RoutePeerKind → String → AgentRoute :=
    fun a _ _ _ => ⟨"main", a, "session"⟩
  mentionRegexes : String → List String := fun _ => []
  regexTest : String → String → Bool := fun _ _ => false
  allowTextCommands : Bool := false
  hasControlCommand : String → Bool := fun _ => false
  allowListMatches : List String → String → Bool := fun _ _ => false
  userAllowed : Option (List String) → String → String → Bool := fun _ _ _ => true
  senderAllowListed : List String → String → String → Bool := fun _ _ _ => false
  resolveMedia : Option (List String) → Option SlackMedia := fun _ => none
  resolveAckReaction : String → Option String := fun _ => none
  tsMillis : String → Int := fun _ => 0
  formatAgentEnvelope : String → String → Option Int → String → String :=
    fun _ _ _ b => b
  formatThreadStarterEnvelope : String → String → Option Int → String → String :=
    fun _ _ _ b => b
  buildHistoryContext :
      List SlackHistoryEntry → Nat → Option SlackHistoryEntry → String →
        (SlackHistoryEntry → String) → String :=
    fun _ _ _ cur _ => cur
  buildPairingReply : String → String → String := fun idLine code => idLine ++ " " ++ code
  genPairingCode : String → String := fun _ => "CODE"
  resolveThreadStarter : String → String → Option SlackThreadStarter := fun _ _ => none

/-- Reasons for the early-exit `return null` branches of the pipeline, in
source order. -/
inductive DropReason where
  | selfMessage
  | botNotAllowed
  | dmMissingUser
  | missingSender
  | channelNotAllowed
  | dmDisabled
  | dmUnauthorized
  | roomUserUnauthorized
  | noMention
  | emptyBody
  | emptyReplyTarget
deriving DecidableEq

/-- The `ctxPayload` record assembled for a forwarded message. -/
structure SlackCtxPayload where
  Body : String
  RawBody : String
  CommandBody : String
  From : String
  To : String
  SessionKey : String
  AccountId : String
  ChatType : String
  GroupSubject : Option String
  GroupSystemPrompt : Option String
  SenderName : String
  SenderId : String
  MessageSid : Option String
  ReplyToId : Option String
  ParentSessionKey : Option String
  ThreadStarterBody : Option String
  ThreadLabel : Option String
  Timestamp : Option Int
  WasMentioned : Option Bool
  MediaPath : Option String
  MediaType : Option String
  MediaUrl : Option String
  CommandAuthorized : Bool

/-- The `PreparedSlackMessage` returned on the success path (the context,
account and raw event are the pipeline's own arguments and are not
duplicated here). -/
structure PreparedSlackMessage where
  route : AgentRoute
  channelConfig : Option SlackChannelConfig
  replyTarget : String
  ctxPayload : SlackCtxPayload
  isDirectMessage : Bool
  isRoomish : Bool
  historyKey : String
  preview : String
  ackReactionMessageTs : Option String
  ackReactionValue : String

/-- Full observable outcome of one pipeline run: the returned value (or the
drop reason), the pairing store after the run, the pairing replies
dispatched via `sendMessageSlack`, and whether an acknowledgment reaction
was scheduled. -/
structure PrepareOutcome where
  res : Except DropReason PreparedSlackMessage
  store : PairingStore
  sentMessages : List (String × String)
  ackScheduled : Bool

/-- Outcome of a drop branch with no side effects. -/
def dropOutcome (r : DropReason) (store : PairingStore) : PrepareOutcome :=
  ⟨.error r, store, [], false⟩

/-! ## Factored sub-computations of the pipeline -/

/-- Modelled from the spec: the pairing-store module is not among the
sources.  Per the spec, `upsertChannelPairingRequest` looks up or creates a
pending pairing request keyed by the sender id; creation is idempotent — a
second upsert for the same sender returns the existing code with
`created = false` and does not mint a second code.  Returns
`((code, created), store')`. -/
def upsertChannelPairingRequest (store : PairingStore) (id : String)
    (freshCode : String) : (String × Bool) × PairingStore :=
  match store.entries.find? (fun e => decide (e.1 = id)) with
  | some e => ((e.2, false), store)
  | none => ((freshCode, true), ⟨(id, freshCode) :: store.entries⟩)

/-- The thread-keys record returned by `resolveThreadSessionKeys`. -/
structure ThreadKeys where
  sessionKey : String
  parentSessionKey : Option String

/-- Modelled from the spec: the routing session-key module is not among the
sources.  Per the spec, when a thread id is present the session key is a
thread-scoped key derived from the base session key and the thread id and
the caller-supplied parent session key is kept; otherwise the session key
is the base session key and the parent key is absent. -/
def resolveThreadSessionKeys (baseSessionKey : String) (threadId : Option String)
    (parentSessionKey : Option String) : ThreadKeys :=
  match threadId with
  | some t => ⟨baseSessionKey ++ ":thread:" ++ t, parentSessionKey⟩
  | none => ⟨baseSessionKey, none⟩

/-- The channel-info fetch and channel-type fallback at the top of the
pipeline: the fetch is skipped only when the event already carries
`channel_type === "im"`; otherwise the resolved info's type backfills a
missing event type. -/
def resolveChannelInfoAndType (ctx : SlackMonitorContext) (message : SlackMessageEvent) :
    ChannelInfo × Option String :=
  if message.channel_type = some "im" then ({}, some "im")
  else
    let info := ctx.resolveChannelName message.channel
    (info, message.channel_type <|> info.type)

/-- `matchesMentionPatterns(text, regexes)`: some configured pattern
matches. -/
def matchesMentionPatterns (env : SlackEnv) (text : String) (regexes : List String) : Bool :=
  regexes.any (fun p => env.regexTest p text)

/-- The `shouldBypassMention` conjunction: control commands may bypass
mention gating only for an authorized sender in a mention-requiring room
whose text carries no mention of anyone. -/
def computeShouldBypassMention (allowTextCommands isRoom shouldRequireMention wasMentioned
    hasAnyMention commandAuthorized hasControlCmd : Bool) : Bool :=
  allowTextCommands && isRoom && shouldRequireMention && !wasMentioned &&
    !hasAnyMention && commandAuthorized && hasControlCmd

/-- `isThreadReply`: a non-empty thread id that differs from the message's
own id, or comes with a parent sender id. -/
def computeIsThreadReply (threadTs ts parentUserId : Option String) : Bool :=
  (threadTs.isSome && decide (threadTs.getD "" ≠ "")) &&
    (decide (threadTs ≠ ts) || jsTruthy parentUserId)

/-- The `shouldAckReaction` closure: no reaction without a configured
symbol; scope `group-mentions` additionally requires a room-kind,
mention-required, mention-detectable, mention-satisfied message. -/
def shouldAckReaction (ackReaction : Option String) (scope : String)
    (isDirectMessage isRoomish isRoom shouldRequireMention canDetectMention
      effectiveWasMentioned : Bool) : Bool :=
  if jsTruthy ackReaction = false then false
  else if scope = "all" then true
  else if scope = "direct" then isDirectMessage
  else if scope = "group-all" then isRoomish
  else if scope = "group-mentions" then
    if isRoom = false then false
    else if shouldRequireMention = false then false
    else if canDetectMention = false then false
    else effectiveWasMentioned
  else false

/-! ## The prepare pipeline -/

/-- The envelope-assembly tail of the pipeline (everything after the
empty-body gate): acknowledgment-reaction decision, history entry,
session/thread keys, thread-starter fetch and the final
`ctxPayload`/reply-target construction.  Factored out of
`prepareSlackMessage`, taking the values computed by the preceding gates as
parameters. -/
def assembleSlackEnvelope (ctx : SlackMonitorContext) (env : SlackEnv)
    (message : SlackMessageEvent) (store : PairingStore)
    (channelInfo : ChannelInfo) (resolvedChannelType : SlackChannelKind)
    (channelConfig : Option SlackChannelConfig) (route : AgentRoute)
    (senderId senderName : String)
    (commandAuthorized shouldRequireMention canDetectMention effectiveWasMentioned : Bool)
    (media : Option SlackMedia) (rawBody : String) : PrepareOutcome :=
  let channelName := channelInfo.name
  let isDirectMessage := decide (resolvedChannelType = .im)
  let isGroupDm := decide (resolvedChannelType = .mpim)
  let isRoom := decide (resolvedChannelType = .chan) || decide (resolvedChannelType = .grp)
  let isRoomish := isRoom || isGroupDm
  let ackReaction := env.resolveAckReaction route.agentId
  let ackReactionValue := ackReaction.getD ""
  let shouldAck := shouldAckReaction ackReaction ctx.ackReactionScope
    isDirectMessage isRoomish isRoom shouldRequireMention canDetectMention
    effectiveWasMentioned
  let ackScheduled :=
    shouldAck && jsTruthy message.ts && decide (ackReactionValue ≠ "")
  let roomLabel :=
    if jsTruthy channelName then "#" ++ channelName.getD ""
    else "#" ++ message.channel
  let tsMillisOpt :=
    if jsTruthy message.ts then some (env.tsMillis (message.ts.getD ""))
    else none
  let historyEntry :=
    if isRoomish && decide (ctx.historyLimit > 0) then
      some (SlackHistoryEntry.mk senderName rawBody tsMillisOpt message.ts)
    else none
  let preview := jsSlice (collapseWs rawBody) 160
  let slackFrom :=
    if isDirectMessage then "slack:" ++ jsInterp message.user
    else if isRoom then "slack:channel:" ++ message.channel
    else "slack:group:" ++ message.channel
  let baseSessionKey := route.sessionKey
  let threadTs := message.thread_ts
  let isThreadReply :=
    computeIsThreadReply threadTs message.ts message.parent_user_id
  let threadKeys := resolveThreadSessionKeys baseSessionKey
    (if isThreadReply then threadTs else none)
    (if isThreadReply && ctx.threadInheritParent then some baseSessionKey
     else none)
  let sessionKey := threadKeys.sessionKey
  let historyKey :=
    if isThreadReply && decide (ctx.threadHistoryScope = "thread") then
      sessionKey
    else message.channel
  let textWithId := rawBody ++ "\n[slack message id: " ++ jsInterp message.ts
    ++ " channel: " ++ message.channel ++ "]"
  let body := env.formatAgentEnvelope "Slack" senderName tsMillisOpt textWithId
  let combinedBody :=
    if isRoomish && decide (ctx.historyLimit > 0) then
      env.buildHistoryContext (ctx.channelHistories historyKey)
        ctx.historyLimit historyEntry body
        (fun entry => env.formatAgentEnvelope "Slack" roomLabel entry.timestamp
          (entry.sender ++ ": " ++ entry.body ++
            (if jsTruthy entry.messageId then
              " [id:" ++ jsInterp entry.messageId ++ " channel:"
                ++ message.channel ++ "]"
            else "")))
    else body
  let slackTo :=
    if isDirectMessage then "user:" ++ jsInterp message.user
    else "channel:" ++ message.channel
  let channelDescription := String.intercalate "\n" (dedupFirst
    ((([channelInfo.topic, channelInfo.purpose].map
        (fun e => e.map jsTrim)).filterMap id).filter
      (fun e => decide (e ≠ ""))))
  let systemPromptParts := List.filterMap id
    [(if channelDescription ≠ "" then
        some ("Channel description: " ++ channelDescription)
      else none),
      (match (channelConfig.bind SlackChannelConfig.systemPrompt).map
          jsTrim with
       | some sp => if sp ≠ "" then some sp else none
       | none => none)]
  let groupSystemPrompt :=
    if systemPromptParts.length > 0 then
      some (String.intercalate "\n\n" systemPromptParts)
    else none
  let starterInfo : Option String × Option String :=
    if isThreadReply && jsTruthy threadTs then
      match env.resolveThreadStarter message.channel (threadTs.getD "") with
      | some starter =>
        if jsTruthy starter.text then
          let starterUser :=
            if jsTruthy starter.userId then
              ctx.resolveUserName (starter.userId.getD "")
            else none
          let starterName :=
            ((starterUser.bind SlackUserInfo.name) <|> starter.userId).getD
              "Unknown"
          let starterWithId := starter.text.getD ""
            ++ "\n[slack message id: " ++ jsInterp (starter.ts <|> threadTs)
            ++ " channel: " ++ message.channel ++ "]"
          let starterTsOpt :=
            if jsTruthy starter.ts then
              some (env.tsMillis (starter.ts.getD ""))
            else none
          let starterBody := env.formatThreadStarterEnvelope "Slack"
            starterName starterTsOpt starterWithId
          let snippet := jsSlice (collapseWs (starter.text.getD "")) 80
          let starterLabel := "Slack thread " ++ roomLabel ++
            (if snippet ≠ "" then ": " ++ snippet else "")
          (some starterBody, some starterLabel)
        else (none, some ("Slack thread " ++ roomLabel))
      | none => (none, some ("Slack thread " ++ roomLabel))
    else (none, none)
  let ctxPayload : SlackCtxPayload := {
    Body := combinedBody
    RawBody := rawBody
    CommandBody := rawBody
    From := slackFrom
    To := slackTo
    SessionKey := sessionKey
    AccountId := route.accountId
    ChatType :=
      if isDirectMessage then "direct" else if isRoom then "room" else "group"
    GroupSubject := if isRoomish then some roomLabel else none
    GroupSystemPrompt := if isRoomish then groupSystemPrompt else none
    SenderName := senderName
    SenderId := senderId
    MessageSid := message.ts
    ReplyToId := message.thread_ts <|> message.ts
    ParentSessionKey := threadKeys.parentSessionKey
    ThreadStarterBody := starterInfo.1
    ThreadLabel := starterInfo.2
    Timestamp := tsMillisOpt
    WasMentioned := if isRoomish then some effectiveWasMentioned else none
    MediaPath := media.bind SlackMedia.path
    MediaType := media.bind SlackMedia.contentType
    MediaUrl := media.bind SlackMedia.path
    CommandAuthorized := commandAuthorized }
  let replyTarget := ctxPayload.To
  if replyTarget = "" then ⟨.error .emptyReplyTarget, store, [], ackScheduled⟩
  else
    ⟨.ok {
      route := route
      channelConfig := channelConfig
      replyTarget := replyTarget
      ctxPayload := ctxPayload
      isDirectMessage := isDirectMessage
      isRoomish := isRoomish
      historyKey := historyKey
      preview := preview
      ackReactionMessageTs := message.ts
      ackReactionValue := ackReactionValue }, store, [], ackScheduled⟩

/-- `prepareSlackMessage`: the full admission pipeline, with early-exit
`return null` branches tagged by their `DropReason`.  The pairing store is
threaded explicitly; dispatched pairing replies are collected in
`sentMessages` and the fire-and-forget acknowledgment reaction is the
`ackScheduled` flag (reply/reaction delivery failures are caught and logged
in the source and change nothing observable here).  The verbose logs and
the system-event enqueue are not modelled: they have no influence on the
returned value, the store, or the side-effect record. -/
def prepareSlackMessage (ctx : SlackMonitorContext) (env : SlackEnv)
    (account : ResolvedSlackAccount) (message : SlackMessageEvent)
    (opts : PrepareOpts) (store : PairingStore) : PrepareOutcome :=
  let infoType := resolveChannelInfoAndType ctx message
  let channelInfo := infoType.1
  let channelName := channelInfo.name
  let resolvedChannelType := env.normalizeChannelType infoType.2 message.channel
  let isDirectMessage := decide (resolvedChannelType = .im)
  let isGroupDm := decide (resolvedChannelType = .mpim)
  let isRoom := decide (resolvedChannelType = .chan) || decide (resolvedChannelType = .grp)
  let isRoomish := isRoom || isGroupDm
  let channelConfig :=
    if isRoom then env.resolveChannelConfig message.channel channelName else none
  let allowBots :=
    ((channelConfig.bind SlackChannelConfig.allowBots) <|> account.configAllowBots
        <|> env.cfgAllowBots).getD false
  let isBotMessage := jsTruthy message.bot_id
  if isBotMessage && jsTruthy message.user && jsTruthy ctx.botUserId
      && decide (message.user = ctx.botUserId) then
    dropOutcome .selfMessage store
  else if isBotMessage && !allowBots then
    dropOutcome .botNotAllowed store
  else if isDirectMessage && !jsTruthy message.user then
    dropOutcome .dmMissingUser store
  else
    let senderIdOpt := message.user <|> (if isBotMessage then message.bot_id else none)
    if !jsTruthy senderIdOpt then dropOutcome .missingSender store
    else
      let senderId := senderIdOpt.getD ""
      if !(ctx.isChannelAllowed message.channel channelName resolvedChannelType) then
        dropOutcome .channelNotAllowed store
      else
        let dmDecision : Option (DropReason × PairingStore × List (String × String)) :=
          if isDirectMessage then
            if !jsTruthy message.user then some (.dmMissingUser, store, [])
            else if !ctx.dmEnabled || decide (ctx.dmPolicy = "disabled") then
              some (.dmDisabled, store, [])
            else if ctx.dmPolicy ≠ "open" then
              let directUserId := message.user.getD ""
              if env.allowListMatches ctx.allowFromLower directUserId then none
              else if ctx.dmPolicy = "pairing" then
                let up := upsertChannelPairingRequest store directUserId
                  (env.genPairingCode directUserId)
                if up.1.2 then
                  some (.dmUnauthorized, up.2,
                    [(message.channel,
                      env.buildPairingReply ("Your Slack user id: " ++ directUserId) up.1.1)])
                else some (.dmUnauthorized, up.2, [])
              else some (.dmUnauthorized, store, [])
            else none
          else none
        match dmDecision with
        | some d => ⟨.error d.1, d.2.1, d.2.2, false⟩
        | none =>
          let route := env.resolveAgentRoute account.accountId
            (if ctx.teamId = "" then none else some ctx.teamId)
            (if isDirectMessage then .dm else if isRoom then .chanPeer else .grpPeer)
            (if isDirectMessage then message.user.getD "unknown" else message.channel)
          let mentionRegexes := env.mentionRegexes route.agentId
          let textStr := message.text.getD ""
          let wasMentioned := opts.wasMentioned.getD
            (!isDirectMessage &&
              ((jsTruthy ctx.botUserId &&
                  (match message.text with
                   | some t => strIncludes t ("<@" ++ ctx.botUserId.getD "" ++ ">")
                   | none => false)) ||
                matchesMentionPatterns env textStr mentionRegexes))
          let implicitMention := !isDirectMessage && jsTruthy ctx.botUserId &&
            jsTruthy message.thread_ts && decide (message.parent_user_id = ctx.botUserId)
          let sender :=
            if jsTruthy message.user then ctx.resolveUserName (message.user.getD "") else none
          let senderName :=
            ((sender.bind SlackUserInfo.name) <|> (message.username.map jsTrim)
                <|> message.user <|> message.bot_id).getD "unknown"
          let channelUserAuthorized :=
            if isRoom then
              env.userAllowed (channelConfig.bind SlackChannelConfig.users) senderId senderName
            else true
          if isRoom && !channelUserAuthorized then dropOutcome .roomUserUnauthorized store
          else
            let commandAuthorized :=
              env.senderAllowListed ctx.allowFromLower senderId senderName
                && channelUserAuthorized
            let hasAnyMention := hasMentionToken textStr
            let allowTextCommands := env.allowTextCommands
            let shouldRequireMention :=
              if isRoom then
                (channelConfig.bind SlackChannelConfig.requireMention).getD
                  ctx.defaultRequireMention
              else false
            let shouldBypassMention := computeShouldBypassMention allowTextCommands isRoom
              shouldRequireMention wasMentioned hasAnyMention commandAuthorized
              (env.hasControlCommand textStr)
            let canDetectMention :=
              jsTruthy ctx.botUserId || decide (mentionRegexes.length > 0)
            let mentionGate := resolveMentionGating
              ⟨shouldRequireMention, canDetectMention, wasMentioned,
                some implicitMention, some shouldBypassMention⟩
            let effectiveWasMentioned := mentionGate.effectiveWasMentioned
            if isRoom && shouldRequireMention && mentionGate.shouldSkip then
              dropOutcome .noMention store
            else
              let media := env.resolveMedia message.files
              let rawBody :=
                jsOrStr (jsTrim textStr) ((media.bind SlackMedia.placeholder).getD "")
              if rawBody = "" then dropOutcome .emptyBody store
              else
                assembleSlackEnvelope ctx env message store channelInfo
                  resolvedChannelType channelConfig route senderId senderName
                  commandAuthorized shouldRequireMention canDetectMention
                  effectiveWasMentioned media rawBody

/-! ## Specification predicates and concrete fixtures -/

/-- Is the outcome the final empty-reply-target drop? -/
def hitEmptyReplyTargetDrop : Except DropReason PreparedSlackMessage → Bool
  | .error DropReason.emptyReplyTarget => true
  | _ => false

/-- Body-resolution contract of a forwarded message: `RawBody` is the
trimmed text when non-empty, else the media placeholder. -/
def rawBodySpec (message : SlackMessageEvent) (env : SlackEnv)
    (pm : PreparedSlackMessage) : Bool :=
  pm.ctxPayload.RawBody ==
    (if jsTrim (message.text.getD "") = "" then
      ((env.resolveMedia message.files).bind SlackMedia.placeholder).getD ""
    else jsTrim (message.text.getD ""))

/-- Reply-target contract of a forwarded message: non-empty, of the form
`user:...` or `channel:...`. -/
def replyTargetSpec (message : SlackMessageEvent) (pm : PreparedSlackMessage) : Bool :=
  (pm.replyTarget != "") &&
    ((pm.replyTarget == "user:" ++ jsInterp message.user) ||
      (pm.replyTarget == "channel:" ++ message.channel))

/-- Channel-type normalizer for concrete runs, mapping the Slack API type
strings to channel kinds. -/
def sampleNormalize : Option String → String → SlackChannelKind := fun ct _ =>
  match ct with
  | some "im" => SlackChannelKind.im
  | some "mpim" => SlackChannelKind.mpim
  | some "channel" => SlackChannelKind.chan
  | some "group" => SlackChannelKind.grp
  | _ => SlackChannelKind.other

/-- Environment for concrete runs: default collaborators, real normalizer. -/
def sampleEnv : SlackEnv := { normalizeChannelType := sampleNormalize }

/-- Account fixture. -/
def sampleAccount : ResolvedSlackAccount := ⟨"acct", none⟩

/-- Opts fixture (plain `message` event, no precomputed mention flag). -/
def sampleOpts : PrepareOpts := { source := "message" }

/-- An empty pairing store. -/
def emptyPairingStore : PairingStore := ⟨[]⟩

/-- Context whose own bot user id is `U1`. -/
def selfUserCtx : SlackMonitorContext := { botUserId := some "U1" }

/-- A room message sent by the bot's own user id but with no `bot_id`. -/
def selfUserMsg : SlackMessageEvent :=
  { channel := "C1", channel_type := some "channel", user := some "U1",
    text := some "hello" }

/-- A bot-indicated room message sent by the bot's own user id. -/
def selfBotMsg : SlackMessageEvent :=
  { channel := "C1", channel_type := some "channel", user := some "U1",
    bot_id := some "B1", text := some "hello" }

/-- Context with direct messages disabled while the policy stays `open`. -/
def dmDisabledCtx : SlackMonitorContext := { dmEnabled := false, dmPolicy := "open" }

/-- Context running the `pairing` DM policy. -/
def pairingCtx : SlackMonitorContext := { dmPolicy := "pairing" }

/-- A direct message from user `U9`. -/
def dmMsg : SlackMessageEvent :=
  { channel := "D1", channel_type := some "im", user := some "U9", text := some "hi" }

/-- A room message whose text is whitespace only and that carries no media. -/
def emptyBodyMsg : SlackMessageEvent :=
  { channel := "C1", channel_type := some "channel", user := some "U2",
    text := some "   " }

/-! ## Helper lemmas -/

lemma strAppendNeEmpty (a b : String) (h : a.data ≠ []) : a ++ b ≠ "" := by
  intro hc
  apply h
  have hd := congrArg String.data hc
  rw [String.data_append] at hd
  exact (List.append_eq_nil.mp hd).1

lemma userTargetNeEmpty (s : String) : "user:" ++ s ≠ "" :=
  strAppendNeEmpty _ _ (by decide)

lemma channelTargetNeEmpty (s : String) : "channel:" ++ s ≠ "" :=
  strAppendNeEmpty _ _ (by decide)

lemma errToOption (r : DropReason) :
    (Except.error r : Except DropReason PreparedSlackMessage).toOption = none := rfl

lemma hitErrDrop (r : DropReason) :
    hitEmptyReplyTargetDrop (Except.error r) = decide (r = DropReason.emptyReplyTarget) := by
  cases r <;> rfl

/-- The envelope-assembly tail always succeeds: its result is `ok` with the
given raw body and a reply target of the DM/room shape. -/
lemma assembleSlackEnvelope_ok (ctx : SlackMonitorContext) (env : SlackEnv)
    (message : SlackMessageEvent) (store : PairingStore)
    (channelInfo : ChannelInfo) (resolvedChannelType : SlackChannelKind)
    (channelConfig : Option SlackChannelConfig) (route : AgentRoute)
    (senderId senderName : String)
    (commandAuthorized shouldRequireMention canDetectMention effectiveWasMentioned : Bool)
    (media : Option SlackMedia) (rawBody : String) :
    ∃ pm, (assembleSlackEnvelope ctx env message store channelInfo resolvedChannelType
        channelConfig route senderId senderName commandAuthorized shouldRequireMention
        canDetectMention effectiveWasMentioned media rawBody).res = Except.ok pm
      ∧ pm.ctxPayload.RawBody = rawBody
      ∧ pm.replyTarget =
          (if resolvedChannelType = SlackChannelKind.im then
            "user:" ++ jsInterp message.user
          else "channel:" ++ message.channel) := by
  by_cases hd : resolvedChannelType = SlackChannelKind.im <;>
    simp [assembleSlackEnvelope, hd, userTargetNeEmpty, channelTargetNeEmpty]

lemma assembleSlackEnvelope_rawBody_all (ctx : SlackMonitorContext) (env : SlackEnv)
    (message : SlackMessageEvent) (store : PairingStore)
    (channelInfo : ChannelInfo) (resolvedChannelType : SlackChannelKind)
    (channelConfig : Option SlackChannelConfig) (route : AgentRoute)
    (senderId senderName : String)
    (commandAuthorized shouldRequireMention canDetectMention effectiveWasMentioned : Bool)
    (media : Option SlackMedia) (rawBody : String)
    (hraw : rawBody = jsOrStr (jsTrim (message.text.getD ""))
      (((env.resolveMedia message.files).bind SlackMedia.placeholder).getD "")) :
    (assembleSlackEnvelope ctx env message store channelInfo resolvedChannelType
        channelConfig route senderId senderName commandAuthorized shouldRequireMention
        canDetectMention effectiveWasMentioned media rawBody).res.toOption.all
      (rawBodySpec message env) = true := by
  obtain ⟨pm, hok, hb, -⟩ := assembleSlackEnvelope_ok ctx env message store channelInfo
    resolvedChannelType channelConfig route senderId senderName commandAuthorized
    shouldRequireMention canDetectMention effectiveWasMentioned media rawBody
  rw [hok]
  simp only [Except.toOption, Option.all_some, rawBodySpec, hb, hraw, jsOrStr]
  by_cases h : jsTrim (message.text.getD "") = "" <;> simp [h]

lemma assembleSlackEnvelope_no_empty_target (ctx : SlackMonitorContext) (env : SlackEnv)
    (message : SlackMessageEvent) (store : PairingStore)
    (channelInfo : ChannelInfo) (resolvedChannelType : SlackChannelKind)
    (channelConfig : Option SlackChannelConfig) (route : AgentRoute)
    (senderId senderName : String)
    (commandAuthorized shouldRequireMention canDetectMention effectiveWasMentioned : Bool)
    (media : Option SlackMedia) (rawBody : String) :
    hitEmptyReplyTargetDrop (assembleSlackEnvelope ctx env message store channelInfo
      resolvedChannelType channelConfig route senderId senderName commandAuthorized
      shouldRequireMention canDetectMention effectiveWasMentioned media rawBody).res
      = false := by
  obtain ⟨pm, hok, -, -⟩ := assembleSlackEnvelope_ok ctx env message store channelInfo
    resolvedChannelType channelConfig route senderId senderName commandAuthorized
    shouldRequireMention canDetectMention effectiveWasMentioned media rawBody
  rw [hok]
  rfl

lemma assembleSlackEnvelope_target_all (ctx : SlackMonitorContext) (env : SlackEnv)
    (message : SlackMessageEvent) (store : PairingStore)
    (channelInfo : ChannelInfo) (resolvedChannelType : SlackChannelKind)
    (channelConfig : Option SlackChannelConfig) (route : AgentRoute)
    (senderId senderName : String)
    (commandAuthorized shouldRequireMention canDetectMention effectiveWasMentioned : Bool)
    (media : Option SlackMedia) (rawBody : String) :
    (assembleSlackEnvelope ctx env message store channelInfo resolvedChannelType
        channelConfig route senderId senderName commandAuthorized shouldRequireMention
        canDetectMention effectiveWasMentioned media rawBody).res.toOption.all
      (replyTargetSpec message) = true := by
  obtain ⟨pm, hok, -, ht⟩ := assembleSlackEnvelope_ok ctx env message store channelInfo
    resolvedChannelType channelConfig route senderId senderName commandAuthorized
    shouldRequireMention canDetectMention effectiveWasMentioned media rawBody
  rw [hok]
  simp only [Except.toOption, Option.all_some, replyTargetSpec, ht]
  by_cases hd : resolvedChannelType = SlackChannelKind.im <;>
    simp [hd, userTargetNeEmpty, channelTargetNeEmpty]

/-! ## Claim theorems -/

/-- C1: for every input, `resolveMentionGating` returns
`effectiveWasMentioned` equal to the logical OR of `wasMentioned`,
`implicitMention` and `shouldBypassMention` (absent optional flags treated
as false), and `shouldSkip` holds iff
`requireMention ∧ canDetectMention ∧ ¬effectiveWasMentioned`. -/
theorem resolveMentionGating_truth_table (p : MentionGateParams) :
    (resolveMentionGating p).effectiveWasMentioned
      = (p.wasMentioned || p.implicitMention.getD false || p.shouldBypassMention.getD false)
    ∧ (resolveMentionGating p).shouldSkip
      = (p.requireMention && p.canDetectMention
          && !(p.wasMentioned || p.implicitMention.getD false
                || p.shouldBypassMention.getD false)) := by
  obtain ⟨rm, cd, wm, im, bp⟩ := p
  rcases im with _ | im <;> rcases bp with _ | bp <;>
    exact ⟨by simp [resolveMentionGating], by simp [resolveMentionGating]⟩

/-- C3: when `canDetectMention` is false the gate never skips, regardless of
`requireMention`, `wasMentioned`, `implicitMention` and
`shouldBypassMention` (deliberate fail-open). -/
theorem resolveMentionGating_fail_open (p : MentionGateParams)
    (h : p.canDetectMention = false) :
    (resolveMentionGating p).shouldSkip = false := by
  simp [resolveMentionGating, h]

/-- Witness for C3 at a concrete input. -/
theorem resolveMentionGating_fail_open_witness :
    (resolveMentionGating
      { requireMention := true, canDetectMention := false, wasMentioned := false }).shouldSkip
      = false :=
  resolveMentionGating_fail_open
    { requireMention := true, canDetectMention := false, wasMentioned := false } rfl

/-- C5: `shouldBypassMention` is true exactly when all of: text-command
handling enabled, room-kind channel, mention required, no explicit mention
found, no mention token of any user in the text, sender command-authorized,
and a recognized control command in the text; if any condition fails it is
false. -/
theorem computeShouldBypassMention_iff (a b c d e f g : Bool) :
    computeShouldBypassMention a b c d e f g = true ↔
      (a = true ∧ b = true ∧ c = true ∧ d = false ∧ e = false ∧ f = true ∧ g = true) := by
  simp [computeShouldBypassMention, and_assoc]

/-- C8: under scope `group-mentions`, a reaction is decided only if the
message is room-kind, mention-required, mention-detectable and actually
mention-satisfied; under every scope there is no reaction when no reaction
symbol is configured. -/
theorem shouldAckReaction_gating (ackReaction : Option String) (scope : String)
    (isDirectMessage isRoomish isRoom shouldRequireMention canDetectMention
      effectiveWasMentioned : Bool) :
    (scope = "group-mentions" →
      shouldAckReaction ackReaction scope isDirectMessage isRoomish isRoom
          shouldRequireMention canDetectMention effectiveWasMentioned = true →
        isRoom = true ∧ shouldRequireMention = true ∧ canDetectMention = true ∧
          effectiveWasMentioned = true)
    ∧ (jsTruthy ackReaction = false →
        shouldAckReaction ackReaction scope isDirectMessage isRoomish isRoom
          shouldRequireMention canDetectMention effectiveWasMentioned = false) := by
  constructor
  · intro hs h
    subst hs
    by_cases ht : jsTruthy ackReaction = false
    · simp [shouldAckReaction, ht] at h
    · simp [shouldAckReaction, ht] at h
      cases isRoom <;> cases shouldRequireMention <;> cases canDetectMention <;>
        simp_all [shouldAckReaction]
  · intro ht
    simp [shouldAckReaction, ht]

/-- Witness for C8 at concrete inputs: the `group-mentions` conditions at a
satisfied instance, and no reaction under scope `all` with no symbol. -/
theorem shouldAckReaction_gating_witness :
    (true = true ∧ true = true ∧ true = true ∧ true = true)
    ∧ shouldAckReaction none "all" false false false false false false = false :=
  ⟨(shouldAckReaction_gating (some "ok") "group-mentions" false true true true true true).1
      rfl rfl,
   (shouldAckReaction_gating none "all" false false false false false false).2 rfl⟩

/-- C6: `isThreadReply` holds iff the message has a non-empty thread id and
(the thread id differs from the message's own id or a parent-sender id is
present); on a thread reply the session key is the thread-scoped key and
the parent session key equals the base session key exactly when
thread-context inheritance is configured; otherwise the session key is the
base session key and the parent key is absent. -/
theorem threadSessionKeys_spec (base : String) (threadTs ts parentUserId : Option String)
    (inherit : Bool) :
    (computeIsThreadReply threadTs ts parentUserId = true ↔
      (∃ t, threadTs = some t ∧ t ≠ "" ∧ (threadTs ≠ ts ∨ jsTruthy parentUserId = true)))
    ∧ (computeIsThreadReply threadTs ts parentUserId = true →
        (resolveThreadSessionKeys base
            (if computeIsThreadReply threadTs ts parentUserId then threadTs else none)
            (if computeIsThreadReply threadTs ts parentUserId && inherit then some base
             else none)).sessionKey = base ++ ":thread:" ++ threadTs.getD "" ∧
        ((resolveThreadSessionKeys base
            (if computeIsThreadReply threadTs ts parentUserId then threadTs else none)
            (if computeIsThreadReply threadTs ts parentUserId && inherit then some base
             else none)).parentSessionKey = if inherit then some base else none))
    ∧ (computeIsThreadReply threadTs ts parentUserId = false →
        (resolveThreadSessionKeys base
            (if computeIsThreadReply threadTs ts parentUserId then threadTs else none)
            (if computeIsThreadReply threadTs ts parentUserId && inherit then some base
             else none)).sessionKey = base ∧
        (resolveThreadSessionKeys base
            (if computeIsThreadReply threadTs ts parentUserId then threadTs else none)
            (if computeIsThreadReply threadTs ts parentUserId && inherit then some base
             else none)).parentSessionKey = none) := by
  refine ⟨?_, ?_, ?_⟩
  · cases threadTs with
    | none => simp [computeIsThreadReply]
    | some t =>
      by_cases h0 : t = "" <;> simp [computeIsThreadReply, h0]
  · intro h
    cases threadTs with
    | none => simp [computeIsThreadReply] at h
    | some t =>
      cases inherit <;> simp [h, resolveThreadSessionKeys]
  · intro h
    simp [h, resolveThreadSessionKeys]

/-- Witness for C6 at concrete inputs: a reply in thread `100` to a
different message `200` is a thread reply with the thread-scoped session
key and inherited parent key; a message with no thread id keeps the base
key and no parent key. -/
theorem threadSessionKeys_spec_witness :
    computeIsThreadReply (some "100") (some "200") none = true
    ∧ (resolveThreadSessionKeys "base"
        (if computeIsThreadReply (some "100") (some "200") none then some "100" else none)
        (if computeIsThreadReply (some "100") (some "200") none && true then some "base"
         else none)).sessionKey = "base" ++ ":thread:" ++ (some "100" : Option String).getD ""
    ∧ (resolveThreadSessionKeys "base"
        (if computeIsThreadReply none none none then (none : Option String) else none)
        (if computeIsThreadReply none none none && true then some "base"
         else none)).parentSessionKey = none :=
  ⟨(threadSessionKeys_spec "base" (some "100") (some "200") none true).1.mpr
      ⟨"100", rfl, by decide, Or.inl (by decide)⟩,
   ((threadSessionKeys_spec "base" (some "100") (some "200") none true).2.1 rfl).1,
   ((threadSessionKeys_spec "base" none none none true).2.2 rfl).2⟩

/-- C2 (counterexample): a message whose sender equals the bot's own user id
but which carries no bot indicator is NOT dropped — it is forwarded, so the
self-message drop is not independent of the bot indicator. -/
theorem prepareSlackMessage_self_user_forwarded :
    selfUserMsg.user = selfUserCtx.botUserId ∧ selfUserMsg.bot_id = none ∧
      (prepareSlackMessage selfUserCtx sampleEnv sampleAccount selfUserMsg sampleOpts
        emptyPairingStore).res.toOption.isSome = true :=
  ⟨rfl, rfl, rfl⟩

/-- C2 (amended): every message carrying a bot indicator whose (truthy)
sender user id equals the context's (truthy) bot user id is dropped,
regardless of the `allowBots` setting and all other configuration. -/
theorem prepareSlackMessage_self_bot_drop (ctx : SlackMonitorContext) (env : SlackEnv)
    (account : ResolvedSlackAccount) (message : SlackMessageEvent)
    (opts : PrepareOpts) (store : PairingStore)
    (hBot : jsTruthy message.bot_id = true)
    (hSelf : jsTruthy ctx.botUserId = true)
    (hEq : message.user = ctx.botUserId) :
    (prepareSlackMessage ctx env account message opts store).res.toOption = none := by
  simp [prepareSlackMessage, hBot, hSelf, hEq, dropOutcome, errToOption]

/-- Witness for the amended C2: a bot-indicated self message is dropped even
though every `allowBots` layer is permissive. -/
theorem prepareSlackMessage_self_bot_drop_witness :
    (prepareSlackMessage selfUserCtx { sampleEnv with cfgAllowBots := some true }
      { sampleAccount with configAllowBots := some true } selfBotMsg sampleOpts
      emptyPairingStore).res.toOption = none :=
  prepareSlackMessage_self_bot_drop selfUserCtx
    { sampleEnv with cfgAllowBots := some true }
    { sampleAccount with configAllowBots := some true } selfBotMsg sampleOpts
    emptyPairingStore rfl rfl rfl

/-- C9: a direct message is dropped whenever the context's `dmEnabled` flag
is false, even under the `open` DM policy — the DM-disabled drop fires when
`dmEnabled` is false or the policy is `disabled`. -/
theorem prepareSlackMessage_dm_disabled_drop (ctx : SlackMonitorContext) (env : SlackEnv)
    (account : ResolvedSlackAccount) (message : SlackMessageEvent)
    (opts : PrepareOpts) (store : PairingStore)
    (hIm : env.normalizeChannelType (resolveChannelInfoAndType ctx message).2 message.channel
      = SlackChannelKind.im)
    (hDm : ctx.dmEnabled = false) :
    (prepareSlackMessage ctx env account message opts store).res.toOption = none := by
  simp [prepareSlackMessage, hIm, hDm, apply_ite PrepareOutcome.res,
    apply_ite (Except.toOption (ε := DropReason) (α := PreparedSlackMessage)),
    errToOption, dropOutcome, ite_self]
  intro _ _ _ _ _
  by_cases hu : jsTruthy message.user = false <;> simp [hu, errToOption]

/-- Witness for C9: a DM under policy `open` with `dmEnabled = false` is
dropped. -/
theorem prepareSlackMessage_dm_disabled_drop_witness :
    (prepareSlackMessage dmDisabledCtx sampleEnv sampleAccount dmMsg sampleOpts
      emptyPairingStore).res.toOption = none :=
  prepareSlackMessage_dm_disabled_drop dmDisabledCtx sampleEnv sampleAccount dmMsg
    sampleOpts emptyPairingStore rfl rfl

/-- C4: under DM policy `pairing`, for a sender not matching the allowlist
and not yet in the pairing store, the first message upserts the pairing
request and dispatches exactly one pairing reply, the second message from
the same sender dispatches none (the upsert is no longer newly created),
and both messages are dropped. -/
theorem prepareSlackMessage_pairing_once (ctx : SlackMonitorContext) (env : SlackEnv)
    (account : ResolvedSlackAccount) (message : SlackMessageEvent)
    (opts : PrepareOpts) (store : PairingStore) (s : String)
    (hCt : message.channel_type = some "im")
    (hIm : env.normalizeChannelType (some "im") message.channel = SlackChannelKind.im)
    (hBid : message.bot_id = none)
    (hU : message.user = some s) (hs : s ≠ "")
    (hAllowed : ctx.isChannelAllowed message.channel none SlackChannelKind.im = true)
    (hEn : ctx.dmEnabled = true)
    (hPol : ctx.dmPolicy = "pairing")
    (hNotAl : env.allowListMatches ctx.allowFromLower s = false)
    (hFresh : store.entries.find? (fun e => decide (e.1 = s)) = none) :
    (prepareSlackMessage ctx env account message opts store).res.toOption = none
    ∧ (prepareSlackMessage ctx env account message opts
        (prepareSlackMessage ctx env account message opts store).store).res.toOption = none
    ∧ (prepareSlackMessage ctx env account message opts store).sentMessages.length = 1
    ∧ (prepareSlackMessage ctx env account message opts
        (prepareSlackMessage ctx env account message opts store).store).sentMessages.length
        = 0 := by
  have h1 : prepareSlackMessage ctx env account message opts store =
      ⟨Except.error DropReason.dmUnauthorized,
        ⟨(s, env.genPairingCode s) :: store.entries⟩,
        [(message.channel,
          env.buildPairingReply ("Your Slack user id: " ++ s) (env.genPairingCode s))],
        false⟩ := by
    simp [prepareSlackMessage, resolveChannelInfoAndType, hCt, hIm, hBid, hU, hs,
      jsTruthy, hAllowed, hEn, hPol, hNotAl, upsertChannelPairingRequest, hFresh,
      dropOutcome]
  have h2 : prepareSlackMessage ctx env account message opts
      (⟨(s, env.genPairingCode s) :: store.entries⟩ : PairingStore) =
      ⟨Except.error DropReason.dmUnauthorized,
        ⟨(s, env.genPairingCode s) :: store.entries⟩, [], false⟩ := by
    simp [prepareSlackMessage, resolveChannelInfoAndType, hCt, hIm, hBid, hU, hs,
      jsTruthy, hAllowed, hEn, hPol, hNotAl, upsertChannelPairingRequest,
      List.find?, dropOutcome]
  rw [h1]
  rw [h2]
  exact ⟨rfl, rfl, rfl, rfl⟩

/-- Witness for C4: two consecutive unauthenticated DMs from `U9` under the
pairing policy yield one dispatched reply in total and two drops. -/
theorem prepareSlackMessage_pairing_once_witness :
    (prepareSlackMessage pairingCtx sampleEnv sampleAccount dmMsg sampleOpts
      emptyPairingStore).res.toOption = none
    ∧ (prepareSlackMessage pairingCtx sampleEnv sampleAccount dmMsg sampleOpts
        (prepareSlackMessage pairingCtx sampleEnv sampleAccount dmMsg sampleOpts
          emptyPairingStore).store).res.toOption = none
    ∧ (prepareSlackMessage pairingCtx sampleEnv sampleAccount dmMsg sampleOpts
        emptyPairingStore).sentMessages.length = 1
    ∧ (prepareSlackMessage pairingCtx sampleEnv sampleAccount dmMsg sampleOpts
        (prepareSlackMessage pairingCtx sampleEnv sampleAccount dmMsg sampleOpts
          emptyPairingStore).store).sentMessages.length = 0 :=
  prepareSlackMessage_pairing_once pairingCtx sampleEnv sampleAccount dmMsg sampleOpts
    emptyPairingStore "U9" rfl rfl rfl rfl (by decide) rfl rfl rfl rfl rfl

set_option maxHeartbeats 2000000 in
/-- C7: if the trimmed message text is empty and media resolution yields no
placeholder, the pipeline returns null; and every forwarded message has
`RawBody` equal to the trimmed text when non-empty, else the media
placeholder. -/
theorem prepareSlackMessage_body_resolution (ctx : SlackMonitorContext) (env : SlackEnv)
    (account : ResolvedSlackAccount) (message : SlackMessageEvent)
    (opts : PrepareOpts) (store : PairingStore) :
    (jsTrim (message.text.getD "") = "" →
      ((env.resolveMedia message.files).bind SlackMedia.placeholder).getD "" = "" →
      (prepareSlackMessage ctx env account message opts store).res.toOption = none)
    ∧ ((prepareSlackMessage ctx env account message opts store).res.toOption.all
        (rawBodySpec message env) = true) := by
  constructor
  · intro hT hP
    simp [prepareSlackMessage, hT, hP, jsOrStr, apply_ite PrepareOutcome.res,
      apply_ite (Except.toOption (ε := DropReason) (α := PreparedSlackMessage)),
      errToOption, dropOutcome, ite_self]
    intros
    split
    · exact rfl
    · simp [apply_ite PrepareOutcome.res,
        apply_ite (Except.toOption (ε := DropReason) (α := PreparedSlackMessage)),
        errToOption, dropOutcome, ite_self]
  · simp [prepareSlackMessage, apply_ite PrepareOutcome.res,
      apply_ite (Except.toOption (ε := DropReason) (α := PreparedSlackMessage)),
      apply_ite (Option.all (rawBodySpec message env)),
      errToOption, dropOutcome, ite_self]
    refine Or.inr (Or.inr (Or.inr (Or.inr (Or.inr ?_))))
    split
    · exact rfl
    · simp only [apply_ite PrepareOutcome.res,
        apply_ite (Except.toOption (ε := DropReason) (α := PreparedSlackMessage)),
        apply_ite (Option.all (rawBodySpec message env)),
        errToOption, Option.all_none, ite_self]
      repeat' split
      all_goals
        first
          | rfl
          | exact assembleSlackEnvelope_rawBody_all _ _ _ _ _ _ _ _ _ _ _ _ _ _ _ _ rfl

/-- Witness for C7: a whitespace-only message with no media is dropped, and
the forwarded-message body contract holds on a concrete forwarded run. -/
theorem prepareSlackMessage_body_resolution_witness :
    (prepareSlackMessage selfUserCtx sampleEnv sampleAccount emptyBodyMsg sampleOpts
      emptyPairingStore).res.toOption = none
    ∧ ((prepareSlackMessage selfUserCtx sampleEnv sampleAccount selfUserMsg sampleOpts
        emptyPairingStore).res.toOption.all (rawBodySpec selfUserMsg sampleEnv) = true) :=
  ⟨(prepareSlackMessage_body_resolution selfUserCtx sampleEnv sampleAccount emptyBodyMsg
      sampleOpts emptyPairingStore).1 rfl rfl,
   (prepareSlackMessage_body_resolution selfUserCtx sampleEnv sampleAccount selfUserMsg
      sampleOpts emptyPairingStore).2⟩

set_option maxHeartbeats 2000000 in
/-- C10: the computed reply target of every forwarded message is a
non-empty string of the form `user:...` or `channel:...`, and the final
empty-reply-target drop branch is never taken. -/
theorem prepareSlackMessage_reply_target (ctx : SlackMonitorContext) (env : SlackEnv)
    (account : ResolvedSlackAccount) (message : SlackMessageEvent)
    (opts : PrepareOpts) (store : PairingStore) :
    hitEmptyReplyTargetDrop (prepareSlackMessage ctx env account message opts store).res
        = false
    ∧ (prepareSlackMessage ctx env account message opts store).res.toOption.all
        (replyTargetSpec message) = true := by
  constructor
  · simp [prepareSlackMessage, apply_ite PrepareOutcome.res,
      apply_ite hitEmptyReplyTargetDrop, hitErrDrop, dropOutcome, ite_self]
    intros
    split
    · rename_i d heq
      repeat' split at heq
      all_goals
        first
          | (injection heq with h2; subst h2; rfl)
          | exact Option.noConfusion heq
    · simp only [apply_ite PrepareOutcome.res, apply_ite hitEmptyReplyTargetDrop,
        hitErrDrop, ite_self]
      repeat' split
      all_goals
        first
          | rfl
          | exact assembleSlackEnvelope_no_empty_target _ _ _ _ _ _ _ _ _ _ _ _ _ _ _ _
  · simp [prepareSlackMessage, apply_ite PrepareOutcome.res,
      apply_ite (Except.toOption (ε := DropReason) (α := PreparedSlackMessage)),
      apply_ite (Option.all (replyTargetSpec message)),
      errToOption, dropOutcome, ite_self]
    refine Or.inr (Or.inr (Or.inr (Or.inr (Or.inr ?_))))
    split
    · exact rfl
    · simp only [apply_ite PrepareOutcome.res,
        apply_ite (Except.toOption (ε := DropReason) (α := PreparedSlackMessage)),
        apply_ite (Option.all (replyTargetSpec message)),
        errToOption, Option.all_none, ite_self]
      repeat' split
      all_goals
        first
          | rfl
          | exact assembleSlackEnvelope_target_all _ _ _ _ _ _ _ _ _ _ _ _ _ _ _ _
